import Mathlib

/-
Verification of the client-side protocol state machines of the chat
application (frontend/src/App.jsx).

The embedding below translates the two React components into pure state
machines:

* the Chat component (per-room client session): state `ChatState`, inbound
  socket events `ServerEvent` applied by `applyEvent` (the registered
  handlers handleChatHistory, handleQuestion, handleResponse,
  handleRoomDeleted, handleTyping, handleStopTyping), and the user action
  `sendMessage` which returns the new state together with the list of
  events emitted on the socket;

* the Responder component (directory dashboard): state is an association
  list from roomId to latest-message preview, mirroring the JavaScript
  object `activeRooms` (insertion order preserved, key update in place),
  with inbound events applied by `applyResponderEvent`.

Calls whose effect is purely visual (scrollIntoView, toast, console.log)
are external collaborators and are not part of the state. The call
`navigate("/")` in handleRoomDeleted is modelled by the Boolean field
`left` of `ChatState`: it records that the session has navigated away
from the room view.
-/

/-- Message role, as produced by the client handlers. -/
inductive Role where
  | asker
  | responder
deriving DecidableEq, Repr

/-- A chat entry as stored in the `chat` array: `\x7b role, message \x7d`. -/
structure ChatMsg where
  role : Role
  message : String
deriving DecidableEq, Repr

/-- State of the Chat component: the `chat` array, the pending input
`message`, the `isTyping` flag, and `left` recording that
`navigate("/")` has been called. -/
structure ChatState where
  chat : List ChatMsg
  message : String
  isTyping : Bool
  left : Bool
deriving DecidableEq, Repr

/-- Initial Chat component state: `useState([])`, `useState("")`,
`useState(false)`, and the session has not navigated away. -/
def initialChatState : ChatState :=
  { chat := [], message := "", isTyping := false, left := false }

/-- Inbound socket events handled by the Chat component. Payload shapes
follow the handlers: chatHistory carries only the message array,
question and response carry `\x7b roomId, msg \x7d`, roomDeleted carries
`\x7b roomId \x7d`, typing and stopTyping carry nothing the handler reads. -/
inductive ServerEvent where
  | chatHistory (messages : List ChatMsg)
  | question (roomId : String) (msg : String)
  | response (roomId : String) (msg : String)
  | roomDeleted (roomId : String)
  | typing
  | stopTyping
deriving DecidableEq, Repr

/-- handleChatHistory: `setChat(messages)`. -/
def handleChatHistory (s : ChatState) (messages : List ChatMsg) : ChatState :=
  { s with chat := messages }

/-- handleQuestion: if the received roomId equals the bound roomId, append
`\x7b role: "asker", message: msg \x7d` to the chat; otherwise do nothing. -/
def handleQuestion (bound : String) (s : ChatState) (rid msg : String) : ChatState :=
  if rid = bound then { s with chat := s.chat ++ [⟨Role.asker, msg⟩] } else s

/-- handleResponse: if the received roomId equals the bound roomId, append
`\x7b role: "responder", message: msg \x7d` to the chat; otherwise do nothing. -/
def handleResponse (bound : String) (s : ChatState) (rid msg : String) : ChatState :=
  if rid = bound then { s with chat := s.chat ++ [⟨Role.responder, msg⟩] } else s

/-- handleRoomDeleted: logs, toasts, and calls `navigate("/")`
unconditionally; the payload roomId is only interpolated into the log
and toast text. Modelled as setting `left`. -/
def handleRoomDeleted (s : ChatState) (_rid : String) : ChatState :=
  { s with left := true }

/-- handleTyping: `setIsTyping(true)`. -/
def handleTyping (s : ChatState) : ChatState :=
  { s with isTyping := true }

/-- handleStopTyping: `setIsTyping(false)`. -/
def handleStopTyping (s : ChatState) : ChatState :=
  { s with isTyping := false }

/-- Dispatch of one inbound socket event to the handler registered for it
while the Chat component is bound to room `bound`. -/
def applyEvent (bound : String) (s : ChatState) : ServerEvent → ChatState
  | ServerEvent.chatHistory messages => handleChatHistory s messages
  | ServerEvent.question rid msg => handleQuestion bound s rid msg
  | ServerEvent.response rid msg => handleResponse bound s rid msg
  | ServerEvent.roomDeleted rid => handleRoomDeleted s rid
  | ServerEvent.typing => handleTyping s
  | ServerEvent.stopTyping => handleStopTyping s

/-- Drop leading whitespace characters from a character list. -/
def dropLeadingWs : List Char → List Char
  | [] => []
  | a :: rest => if a.isWhitespace then dropLeadingWs rest else a :: rest

/-- JavaScript `s.trim()`: strip leading and trailing whitespace. -/
def jsTrim (s : String) : String :=
  String.mk ((dropLeadingWs (dropLeadingWs s.data).reverse).reverse)

/-- Whether `needle` is a literal prefix of `hay`, on character lists. -/
def listStartsWith : List Char → List Char → Bool
  | _, [] => true
  | [], _ :: _ => false
  | a :: hay, b :: needle => a == b && listStartsWith hay needle

/-- Whether `needle` occurs contiguously anywhere in `hay`. -/
def listContains : List Char → List Char → Bool
  | [], needle => needle.isEmpty
  | a :: hay, needle => listStartsWith (a :: hay) needle || listContains hay needle

/-- JavaScript `hay.includes(needle)` for strings: substring containment. -/
def strIncludes (hay needle : String) : Bool :=
  listContains hay.data needle.data

/-- Events emitted by the Chat component inside sendMessage. -/
inductive ClientEmit where
  | questionEv (roomId : String) (msg : String)
  | responseEv (roomId : String) (msg : String)
  | stopTypingEv (roomId : String)
deriving DecidableEq, Repr

/-- A question or response emission, as opposed to a typing signal. -/
def isSendEvent : ClientEmit → Bool
  | ClientEmit.questionEv _ _ => true
  | ClientEmit.responseEv _ _ => true
  | ClientEmit.stopTypingEv _ => false

/-- sendMessage: if the pending input trims to a non-empty string, infer
the role from `window.location.pathname` (responder when the path
contains "/chat/", asker otherwise), emit the corresponding event with
the untrimmed input, clear the input, and emit stopTyping; otherwise do
nothing. Returns the new state and the emitted events in order. -/
def sendMessage (pathname roomId : String) (s : ChatState) :
    ChatState × List ClientEmit :=
  if jsTrim s.message ≠ "" then
    let role : Role :=
      if strIncludes pathname "/chat/" then Role.responder else Role.asker
    ({ s with message := "" },
     [ if role = Role.responder then ClientEmit.responseEv roomId s.message
       else ClientEmit.questionEv roomId s.message,
       ClientEmit.stopTypingEv roomId ])
  else (s, [])

/-- A message-appended delta for the bound room: a question or response
event whose roomId equals the bound roomId. -/
def isMsgDelta (bound : String) : ServerEvent → Bool
  | ServerEvent.question rid _ => rid == bound
  | ServerEvent.response rid _ => rid == bound
  | _ => false

/-- The chat entry a message-appended delta for the bound room produces. -/
def deltaMsg (bound : String) : ServerEvent → Option ChatMsg
  | ServerEvent.question rid msg =>
      if rid = bound then some ⟨Role.asker, msg⟩ else none
  | ServerEvent.response rid msg =>
      if rid = bound then some ⟨Role.responder, msg⟩ else none
  | _ => none

/-- A history snapshot together with the room it was produced for. The
wire payload the handler reads is only the message array; the source
room is provenance metadata the client never sees. -/
structure HistorySnapshot where
  sourceRoomId : String
  messages : List ChatMsg
deriving DecidableEq, Repr

/-- Delivery of a history snapshot to the Chat component: the registered
handler receives the message array only. -/
def deliverHistorySnapshot (bound : String) (s : ChatState)
    (snap : HistorySnapshot) : ChatState :=
  applyEvent bound s (ServerEvent.chatHistory snap.messages)

/-- One entry of the roomsList payload: `\x7b id, latestMessage \x7d`. -/
structure RoomInfo where
  id : String
  latestMessage : String
deriving DecidableEq, Repr

/-- The Responder directory state: the `activeRooms` JavaScript object as
an insertion-ordered association list from roomId to preview. -/
abbrev Directory : Type := List (String × String)

/-- Lookup of a key in the directory. -/
def dirLookup : List (String × String) → String → Option String
  | [], _ => none
  | (k, v) :: rest, key => if k = key then some v else dirLookup rest key

/-- JavaScript object assignment `obj[key] = value`: an existing key keeps
its position and gets the new value; a new key is appended. Both
`acc[room.id] = room.latestMessage` and the spread
`\x7b ...prev, [roomId]: msg \x7d` have this behaviour. -/
def objInsert : List (String × String) → String → String → List (String × String)
  | [], key, value => [(key, value)]
  | (k, v) :: rest, key, value =>
      if k = key then (k, value) :: rest
      else (k, v) :: objInsert rest key value

/-- The roomsList handler: `roomsList.reduce((acc, room) =>
\x7b acc[room.id] = room.latestMessage; return acc \x7d, \x7b\x7d)`. -/
def handleRoomsList (roomsList : List RoomInfo) : Directory :=
  roomsList.foldl (fun acc room => objInsert acc room.id room.latestMessage) []

/-- The Responder question handler: upsert the preview for the roomId,
`setActiveRooms(prev => (\x7b ...prev, [roomId]: msg \x7d))`. -/
def handleQuestionDir (d : Directory) (roomId msg : String) : Directory :=
  objInsert d roomId msg

/-- Inbound socket events relevant to the Responder component. The
component registers handlers only for roomsList, question and getRooms;
a delivered roomDeleted event has no registered handler there. -/
inductive ResponderEvent where
  | roomsList (rooms : List RoomInfo)
  | question (roomId : String) (msg : String)
  | roomDeleted (roomId : String)
  | getRooms
deriving DecidableEq, Repr

/-- Dispatch of one inbound event on the Responder directory state.
roomsList replaces the state with the freshly built mapping; question
upserts; roomDeleted has no handler in the Responder component so the
state is unchanged; the getRooms handler only re-emits getRooms. -/
def applyResponderEvent (d : Directory) : ResponderEvent → Directory
  | ResponderEvent.roomsList rooms => handleRoomsList rooms
  | ResponderEvent.question rid msg => handleQuestionDir d rid msg
  | ResponderEvent.roomDeleted _ => d
  | ResponderEvent.getRooms => d

/-- Initial Responder directory state: `useState(\x7b\x7d)`. -/
def initialActiveRooms : Directory := []

theorem dirLookup_objInsert_self (d : List (String × String)) (k v : String) :
    dirLookup (objInsert d k v) k = some v := by
  induction d with
  | nil => simp [objInsert, dirLookup]
  | cons p rest ih =>
      obtain ⟨pk, pv⟩ := p
      by_cases hpk : pk = k
      · simp [objInsert, hpk, dirLookup]
      · simp [objInsert, hpk, dirLookup, ih]

theorem dirLookup_objInsert_other (d : List (String × String)) (k v key : String)
    (h : key ≠ k) : dirLookup (objInsert d k v) key = dirLookup d key := by
  induction d with
  | nil => simp [objInsert, dirLookup, Ne.symm h]
  | cons p rest ih =>
      obtain ⟨pk, pv⟩ := p
      by_cases hpk : pk = k
      · subst hpk
        simp [objInsert, dirLookup, Ne.symm h]
      · by_cases hkey : pk = key
        · simp [objInsert, hpk, dirLookup, hkey, h]
        · simp [objInsert, hpk, dirLookup, hkey, h, ih]

theorem objInsert_absent (d : List (String × String)) (k v : String)
    (h : dirLookup d k = none) : objInsert d k v = d ++ [(k, v)] := by
  induction d with
  | nil => rfl
  | cons p rest ih =>
      obtain ⟨pk, pv⟩ := p
      by_cases hpk : pk = k
      · simp [dirLookup, hpk] at h
      · simp [dirLookup, hpk] at h
        simp [objInsert, hpk, ih h]

theorem dirLookup_foldl_not_mem (rooms : List RoomInfo) (acc : Directory) (key : String)
    (h : key ∉ rooms.map RoomInfo.id) :
    dirLookup (rooms.foldl (fun a r => objInsert a r.id r.latestMessage) acc) key =
      dirLookup acc key := by
  induction rooms generalizing acc with
  | nil => rfl
  | cons r rest ih =>
      simp only [List.map_cons, List.mem_cons, not_or] at h
      obtain ⟨h1, h2⟩ := h
      rw [List.foldl_cons, ih (objInsert acc r.id r.latestMessage) h2,
        dirLookup_objInsert_other acc r.id r.latestMessage key h1]

theorem dirLookup_foldl_mem (rooms : List RoomInfo) (acc : Directory)
    (hnd : (rooms.map RoomInfo.id).Nodup) :
    ∀ r ∈ rooms,
      dirLookup (rooms.foldl (fun a x => objInsert a x.id x.latestMessage) acc) r.id =
        some r.latestMessage := by
  induction rooms generalizing acc with
  | nil => intro r hr; simp at hr
  | cons x rest ih =>
      intro r hr
      simp only [List.map_cons, List.nodup_cons] at hnd
      obtain ⟨hx, hrest⟩ := hnd
      rw [List.foldl_cons]
      rcases List.mem_cons.mp hr with h | h
      · subst h
        rw [dirLookup_foldl_not_mem rest _ r.id hx, dirLookup_objInsert_self]
      · exact ih _ hrest r h

/-- Claim C1: submitting the send form with input that trims to empty
performs no emission and leaves the whole component state (chat and
pending input included) unchanged; a question or response event is
emitted if and only if the trimmed content is non-empty. -/
theorem sendMessage_trim_gate (pathname roomId : String) (s : ChatState) :
    (jsTrim s.message = "" → sendMessage pathname roomId s = (s, [])) ∧
    ((sendMessage pathname roomId s).2.any isSendEvent = true ↔
      jsTrim s.message ≠ "") := by
  by_cases hc : jsTrim s.message = ""
  · refine ⟨fun _ => by simp [sendMessage, hc], ?_⟩
    simp [sendMessage, hc]
  · refine ⟨fun h => absurd h hc, ?_⟩
    by_cases hp : strIncludes pathname "/chat/" = true <;>
      simp [sendMessage, hc, hp, isSendEvent]

/-- Witness for C1 at the whitespace-only input "   ". -/
theorem sendMessage_trim_gate_witness :
    sendMessage "/user/r1" "r1" { initialChatState with message := "   " } =
      ({ initialChatState with message := "   " }, []) :=
  (sendMessage_trim_gate "/user/r1" "r1"
    { initialChatState with message := "   " }).1 (by decide)

/-- Claim C4: for a non-empty send, the single emitted send event is a
response event exactly when the pathname contains "/chat/", and a
question event otherwise; the two are mutually exclusive since the
filtered emission list is a singleton either way. -/
theorem sendMessage_role_from_path (pathname roomId : String) (s : ChatState)
    (h : jsTrim s.message ≠ "") :
    (strIncludes pathname "/chat/" = true →
      (sendMessage pathname roomId s).2.filter isSendEvent =
        [ClientEmit.responseEv roomId s.message]) ∧
    (strIncludes pathname "/chat/" = false →
      (sendMessage pathname roomId s).2.filter isSendEvent =
        [ClientEmit.questionEv roomId s.message]) := by
  constructor <;> intro hp <;> simp [sendMessage, h, hp, isSendEvent]

/-- Witness for C4 on a responder-view path. -/
theorem sendMessage_role_from_path_witness :
    (sendMessage "/chat/r1" "r1"
        { initialChatState with message := "hi" }).2.filter isSendEvent =
      [ClientEmit.responseEv "r1" "hi"] :=
  (sendMessage_role_from_path "/chat/r1" "r1"
    { initialChatState with message := "hi" } (by decide)).1 (by decide)

/-- Claim C6: every non-empty send emits exactly the send event followed
immediately by a stopTyping event for the bound room. -/
theorem send_emits_stopTyping (pathname roomId : String) (s : ChatState)
    (h : jsTrim s.message ≠ "") :
    (sendMessage pathname roomId s).2 =
      [(if strIncludes pathname "/chat/" = true then
          ClientEmit.responseEv roomId s.message
        else ClientEmit.questionEv roomId s.message),
       ClientEmit.stopTypingEv roomId] ∧
    isSendEvent (if strIncludes pathname "/chat/" = true then
        ClientEmit.responseEv roomId s.message
      else ClientEmit.questionEv roomId s.message) = true := by
  by_cases hp : strIncludes pathname "/chat/" = true <;>
    simp [sendMessage, h, hp, isSendEvent]

/-- Witness for C6 at a concrete non-empty send. -/
theorem send_emits_stopTyping_witness :
    (sendMessage "/user/r1" "r1" { initialChatState with message := "hi" }).2 =
      [(if strIncludes "/user/r1" "/chat/" = true then
          ClientEmit.responseEv "r1" "hi"
        else ClientEmit.questionEv "r1" "hi"),
       ClientEmit.stopTypingEv "r1"] :=
  (send_emits_stopTyping "/user/r1" "r1"
    { initialChatState with message := "hi" } (by decide)).1

/-- Claim C5: a chatHistory event replaces the chat array with exactly the
received message list and changes nothing else of the state, regardless
of any previously held chat. -/
theorem chatHistory_replaces_state (bound : String) (s : ChatState)
    (messages : List ChatMsg) :
    applyEvent bound s (ServerEvent.chatHistory messages) =
      { s with chat := messages } := rfl

/-- Claim C9: the chatHistory handler performs no room check — a snapshot
produced for a room different from the bound one still fully replaces
the chat state with its payload. -/
theorem chatHistory_ignores_source_room (bound : String) (s : ChatState)
    (snap : HistorySnapshot) (_h : snap.sourceRoomId ≠ bound) :
    deliverHistorySnapshot bound s snap = { s with chat := snap.messages } := rfl

/-- Witness for C9: a snapshot produced for roomB overwrites the state of
a session bound to roomA. -/
theorem chatHistory_ignores_source_room_witness :
    deliverHistorySnapshot "roomA" initialChatState
        ⟨"roomB", [⟨Role.asker, "hello"⟩]⟩ =
      { initialChatState with chat := [⟨Role.asker, "hello"⟩] } :=
  chatHistory_ignores_source_room "roomA" initialChatState
    ⟨"roomB", [⟨Role.asker, "hello"⟩]⟩ (by decide)

/-- Claim C10: a question or response event whose roomId differs from the
bound room leaves the whole component state unchanged. -/
theorem crossRoom_message_noop (bound rid msg : String) (s : ChatState)
    (h : rid ≠ bound) :
    applyEvent bound s (ServerEvent.question rid msg) = s ∧
    applyEvent bound s (ServerEvent.response rid msg) = s := by
  constructor <;> simp [applyEvent, handleQuestion, handleResponse, h]

/-- Witness for C10 at a concrete cross-room event. -/
theorem crossRoom_message_noop_witness :
    applyEvent "roomA" initialChatState (ServerEvent.question "roomB" "hi") =
      initialChatState :=
  (crossRoom_message_noop "roomA" "roomB" "hi" initialChatState (by decide)).1

/-- Counterexample to claim C3 as stated: a deletion notification for
roomB, received while bound to roomA, does cause the session to navigate
away — the handler performs no room check. -/
theorem roomDeleted_crossRoom_counterexample :
    "roomB" ≠ "roomA" ∧
    (applyEvent "roomA" initialChatState
        (ServerEvent.roomDeleted "roomB")).left = true :=
  ⟨by decide, rfl⟩

/-- Amended claim C3: the session navigates away on receiving any deletion
notification, regardless of the notified roomId; once the session has
left, a further deletion notification changes nothing, so the transition
into the left state happens at most once. -/
theorem roomDeleted_navigates_unconditionally (bound rid : String)
    (s : ChatState) :
    (applyEvent bound s (ServerEvent.roomDeleted rid)).left = true ∧
    (s.left = true → applyEvent bound s (ServerEvent.roomDeleted rid) = s) := by
  refine ⟨rfl, fun h => ?_⟩
  cases s
  simp_all [applyEvent, handleRoomDeleted]

/-- Witness for the amended C3: a duplicate deletion notification is a
no-op on a session that has already left. -/
theorem roomDeleted_navigates_unconditionally_witness :
    applyEvent "roomA" { initialChatState with left := true }
        (ServerEvent.roomDeleted "roomA") =
      { initialChatState with left := true } :=
  (roomDeleted_navigates_unconditionally "roomA" "roomA"
    { initialChatState with left := true }).2 rfl

/-- Claim C2: applying a sequence of message deltas for the bound room
appends exactly one entry per delta, at the end, in arrival order; the
previously held messages and their relative order are untouched and no
delta is dropped or deduplicated. -/
theorem deltas_append_in_order (bound : String) (s : ChatState)
    (es : List ServerEvent) (h : ∀ e ∈ es, isMsgDelta bound e = true) :
    (es.foldl (applyEvent bound) s).chat =
      s.chat ++ es.filterMap (deltaMsg bound) ∧
    (es.filterMap (deltaMsg bound)).length = es.length := by
  induction es generalizing s with
  | nil => simp
  | cons e rest ih =>
      have he : isMsgDelta bound e = true := h e (List.mem_cons_self e rest)
      have hrest : ∀ x ∈ rest, isMsgDelta bound x = true :=
        fun x hx => h x (List.mem_cons_of_mem e hx)
      cases e with
      | question rid msg =>
          have hrid : rid = bound := by simpa [isMsgDelta] using he
          subst hrid
          obtain ⟨ih1, ih2⟩ :=
            ih { s with chat := s.chat ++ [⟨Role.asker, msg⟩] } hrest
          constructor
          · simpa [applyEvent, handleQuestion, deltaMsg, List.append_assoc]
              using ih1
          · simp [deltaMsg, ih2]
      | response rid msg =>
          have hrid : rid = bound := by simpa [isMsgDelta] using he
          subst hrid
          obtain ⟨ih1, ih2⟩ :=
            ih { s with chat := s.chat ++ [⟨Role.responder, msg⟩] } hrest
          constructor
          · simpa [applyEvent, handleResponse, deltaMsg, List.append_assoc]
              using ih1
          · simp [deltaMsg, ih2]
      | chatHistory messages => simp [isMsgDelta] at he
      | roomDeleted rid => simp [isMsgDelta] at he
      | typing => simp [isMsgDelta] at he
      | stopTyping => simp [isMsgDelta] at he

/-- Witness for C2 on two concrete deltas for the bound room. -/
theorem deltas_append_in_order_witness :
    ([ServerEvent.question "r1" "hello",
      ServerEvent.response "r1" "hi there"].foldl
        (applyEvent "r1") initialChatState).chat =
      initialChatState.chat ++
        [ServerEvent.question "r1" "hello",
         ServerEvent.response "r1" "hi there"].filterMap (deltaMsg "r1") :=
  (deltas_append_in_order "r1" initialChatState
    [ServerEvent.question "r1" "hello",
     ServerEvent.response "r1" "hi there"] (by decide)).1

/-- Claim C7: the directory starts empty, and a roomsList snapshot makes
the state the mapping built from the listed rooms — independent of the
prior state — in which every listed room maps to its latest message and
no unlisted key is present. -/
theorem directory_snapshot_builds_mapping (d : Directory)
    (rooms : List RoomInfo) (hnd : (rooms.map RoomInfo.id).Nodup) :
    initialActiveRooms = ([] : Directory) ∧
    applyResponderEvent d (ResponderEvent.roomsList rooms) =
      handleRoomsList rooms ∧
    (∀ r ∈ rooms,
      dirLookup (applyResponderEvent d (ResponderEvent.roomsList rooms)) r.id =
        some r.latestMessage) ∧
    (∀ key, key ∉ rooms.map RoomInfo.id →
      dirLookup (applyResponderEvent d (ResponderEvent.roomsList rooms)) key =
        none) := by
  refine ⟨rfl, rfl, ?_, ?_⟩
  · exact dirLookup_foldl_mem rooms [] hnd
  · intro key hkey
    exact dirLookup_foldl_not_mem rooms [] key hkey

/-- Witness for C7: a snapshot of two rooms replaces a stale directory. -/
theorem directory_snapshot_builds_mapping_witness :
    dirLookup (applyResponderEvent [("old", "stale")]
        (ResponderEvent.roomsList [⟨"r1", "hello"⟩, ⟨"r2", "yo"⟩])) "r1" =
      some "hello" :=
  (directory_snapshot_builds_mapping [("old", "stale")]
    [⟨"r1", "hello"⟩, ⟨"r2", "yo"⟩] (by decide)).2.2.1
    ⟨"r1", "hello"⟩ (by decide)

/-- Claim C8: an upsert for an absent roomId appends that entry, an upsert
always leaves the upserted roomId mapped to the new preview while every
other key is unchanged, and a delivered roomDeleted event (for which the
Responder registers no handler) leaves the directory unchanged. -/
theorem directory_incremental_updates (d : Directory) (rid msg : String) :
    (dirLookup d rid = none →
      applyResponderEvent d (ResponderEvent.question rid msg) =
        d ++ [(rid, msg)]) ∧
    dirLookup (applyResponderEvent d (ResponderEvent.question rid msg)) rid =
      some msg ∧
    (∀ key, key ≠ rid →
      dirLookup (applyResponderEvent d (ResponderEvent.question rid msg)) key =
        dirLookup d key) ∧
    applyResponderEvent d (ResponderEvent.roomDeleted rid) = d := by
  refine ⟨fun h => ?_, ?_, fun key hk => ?_, rfl⟩
  · simpa [applyResponderEvent, handleQuestionDir] using objInsert_absent d rid msg h
  · simpa [applyResponderEvent, handleQuestionDir] using
      dirLookup_objInsert_self d rid msg
  · simpa [applyResponderEvent, handleQuestionDir] using
      dirLookup_objInsert_other d rid msg key hk

/-- Witness for C8: an upsert into the empty directory inserts the entry. -/
theorem directory_incremental_updates_witness :
    applyResponderEvent [] (ResponderEvent.question "r1" "hello") =
      [("r1", "hello")] := by
  simpa using (directory_incremental_updates [] "r1" "hello").1 (by decide)
